import Mathlib

/-!
# Verification of `csnanalysis/csn.py`

Shallow embedding of the CSNAnalysis module: sparse matrices are modelled as a
shape together with a total entry function into `ℚ` (scipy stores floats; exact
rationals model the arithmetic structure of the operations), and the Python
functions `count_to_trans`, `symmetrize`, `CSN.__init__` and `CSN.trim_graph`
are translated to Lean functions.  Python exceptions are modelled with
`Except PyErr`.
-/

/-- A scipy matrix (dense or `coo`): a shape together with its entries.
Entries at indices outside the shape are junk and never relevant. -/
structure SpMat where
  rows : ℕ
  cols : ℕ
  entry : ℕ → ℕ → ℚ

/-- Sum of row `i` of the matrix, as computed by `tmp.sum(axis=1)` in
`count_to_trans` and by `self.countmat.sum(axis=1)` in `trim_graph`. -/
def SpMat.rowSum (M : SpMat) (i : ℕ) : ℚ :=
  ∑ j in Finset.range M.cols, M.entry i j

/-- `count_to_trans` (csn.py lines 5-16): converts a count matrix to a
transition matrix.  The row sums are computed (`colsums = tmp.sum(axis=1)`,
actually row sums), and each row whose sum `c` satisfies `c > 0` is divided
in place by `c`; other rows are left untouched. -/
def count_to_trans (M : SpMat) : SpMat :=
  { rows := M.rows
  , cols := M.cols
  , entry := fun i j =>
      if 0 < M.rowSum i then M.entry i j / M.rowSum i else M.entry i j }

/-- `M.transpose()` of a scipy matrix. -/
def SpMat.transpose (M : SpMat) : SpMat :=
  { rows := M.cols, cols := M.rows, entry := fun i j => M.entry j i }

/-- Entrywise sum `A + B` of two scipy matrices of the same shape (the only
way it is used in the source). -/
def SpMat.add (A B : SpMat) : SpMat :=
  { rows := A.rows, cols := A.cols, entry := fun i j => A.entry i j + B.entry i j }

/-- Scalar multiple `c * A` of a scipy matrix. -/
def SpMat.smul (c : ℚ) (A : SpMat) : SpMat :=
  { rows := A.rows, cols := A.cols, entry := fun i j => c * A.entry i j }

/-- `symmetrize` (csn.py lines 18-22): `0.5*(countmat + countmat.transpose())`. -/
def symmetrize (M : SpMat) : SpMat :=
  SpMat.smul (1/2) (SpMat.add M M.transpose)

/-- The Python exceptions raised by the module. -/
inductive PyErr where
  /-- `ValueError("Count matrix is not square: ", shape)` at csn.py line 44. -/
  | valueErrorNotSquare (shape : ℕ × ℕ)
  /-- TypeError from calling a `bool`: inside `CSN.__init__` the name
  `symmetrize` is bound to the boolean parameter (csn.py line 26), which
  shadows the module-level function, so `symmetrize(self.countmat)` at
  line 48 calls `True(...)`. -/
  | typeErrorBoolNotCallable
  /-- TypeError from calling a graph object: `trim_graph` at csn.py line 111
  stores a graph in the instance attribute `trim_graph`, shadowing the bound
  method of the same name, so a second `obj.trim_graph(...)` call calls a
  graph. -/
  | typeErrorGraphNotCallable
deriving DecidableEq

/-- The attributes set by a successful `CSN.__init__` (csn.py lines 26-57).
The networkx digraph of line 54-57 is determined by `transmat` (an edge
`i -> j` exists exactly for the stored, i.e. nonzero, entries of the coo
matrix `transmat`), so it is not stored separately. -/
structure CSNState where
  countmat : SpMat
  symmetrize : Bool
  nnodes : ℕ
  transmat : SpMat

/-- `CSN.__init__(counts, symmetrize)` (csn.py lines 26-57), after the input
has been converted to a coo matrix.  The shape check at line 43 runs first;
then, if the `symmetrize` flag is set, line 48 evaluates
`symmetrize(self.countmat)` in a scope where the local name `symmetrize` is
the boolean parameter, so the call raises `TypeError` (a bool is not
callable) and no instance is produced. -/
def CSN.init (counts : SpMat) (symmetrizeFlag : Bool) : Except PyErr CSNState :=
  if counts.rows ≠ counts.cols then
    .error (.valueErrorNotSquare (counts.rows, counts.cols))
  else if symmetrizeFlag then
    .error .typeErrorBoolNotCallable
  else
    .ok { countmat := counts
        , symmetrize := symmetrizeFlag
        , nnodes := counts.rows
        , transmat := count_to_trans counts }

/-- The directed graph built at csn.py lines 54-57: nodes `0..nnodes-1`, and a
weighted edge `i -> j` for every stored entry of the coo matrix `transmat`,
i.e. for every nonzero entry inside the shape. -/
def CSNState.edge (s : CSNState) (i j : ℕ) : Bool :=
  decide (i < s.nnodes) && decide (j < s.nnodes) && decide (s.transmat.entry i j ≠ 0)

/-- Adjacency list of node `i`, in the order the edges were inserted into the
networkx digraph: `coo_matrix(dense)` stores entries in row-major order, so
the out-neighbours of each node appear in ascending column order. -/
def CSNState.nbrs (s : CSNState) (i : ℕ) : List ℕ :=
  (List.range s.nnodes).filter (fun j => s.edge i j)

/-- Depth-first search from `u`, exploring neighbours in adjacency order, as
networkx `dfs_edges` does.  Returns the visited list and the list of DFS tree
edges `(parent, child)` in discovery order.  `fuel` bounds the recursion
depth; `nnodes` is always enough since every recursive call visits a new
node. -/
def dfsFrom (s : CSNState) : ℕ → ℕ → List ℕ → List ℕ × List (ℕ × ℕ)
  | 0, _, visited => (visited, [])
  | fuel+1, u, visited =>
      (s.nbrs u).foldl
        (fun acc v =>
          if v ∈ acc.1 then acc
          else
            let r := dfsFrom s fuel v (v :: acc.1)
            (r.1, acc.2 ++ (u, v) :: r.2))
        (visited, [])

/-- The keys of `nx.dfs_predecessors(graph, source)`: every node that is the
child end of a DFS tree edge, i.e. every node reached from `source` other
than `source` itself. -/
def CSNState.dfsPredKeys (s : CSNState) (source : ℕ) : List ℕ :=
  (dfsFrom s s.nnodes source [source]).2.map Prod.snd

/-- The keys of `nx.dfs_successors(graph, source)`: every node that is the
parent end of at least one DFS tree edge (the internal nodes of the DFS
tree). -/
def CSNState.dfsSuccKeys (s : CSNState) (source : ℕ) : List ℕ :=
  ((dfsFrom s s.nnodes source [source]).2.map Prod.fst).dedup

/-- `totcounts[i]` at csn.py line 94: row sums of the count matrix. -/
def CSNState.totcounts (s : CSNState) (i : ℕ) : ℚ :=
  s.countmat.rowSum i

/-- `msn = totcounts.argmax()` at csn.py line 95: the first index attaining
the maximum row sum (numpy `argmax` returns the lowest such index). -/
def CSNState.msn (s : CSNState) : ℕ :=
  (List.range s.nnodes).foldl
    (fun best i => if s.totcounts best < s.totcounts i then i else best) 0

/-- The boolean mask of csn.py lines 98-108.  It starts all `True`; the
`by_outflow` block keeps `True` only at indices in the keys of
`dfs_predecessors(graph, msn)`, the `by_inflow` block only at indices in the
keys of `dfs_successors(graph, msn)`, and, when `min_count > 0`, line 108
sets the mask to `False` exactly at the indices whose total count is
`>= min_count`. -/
def trimMask (s : CSNState) (by_inflow by_outflow : Bool) (min_count : ℚ)
    (i : ℕ) : Bool :=
  (if by_outflow then decide (i ∈ s.dfsPredKeys s.msn) else true)
  && (if by_inflow then decide (i ∈ s.dfsSuccKeys s.msn) else true)
  && (if 0 < min_count then decide (¬ min_count ≤ s.totcounts i) else true)

/-- In Python, `x is True` is an identity test against the singleton `True`.
At csn.py line 110 the tested value `mask[i]` is a `numpy.bool_` scalar,
which is a different object from Python's `True`, so the test is `False`
for every element, whatever its boolean value. -/
def pyIsTrue (_ : Bool) : Bool := false

/-- The attributes set by `CSN.trim_graph` (csn.py lines 110-119).  The
subgraph stored at line 111 (`self.trim_graph`) is induced by
`trim_indices`, so it is determined by `trim_indices` and the parent state
and is not stored separately. -/
structure TrimResult where
  trim_indices : List ℕ
  trim_countmat : SpMat
  trim_transmat : SpMat
  trim_nnodes : ℕ

/-- The body of `CSN.trim_graph(by_inflow, by_outflow, min_count)` (csn.py
lines 94-119).  `trim_indices` is `[i for i in range(nnodes) if mask[i] is
True]` (line 110, with the numpy-scalar identity test), while
`trim_countmat` is the count matrix restricted by the boolean mask itself
(`toarray()[mask,...][...,mask]`, line 113), re-symmetrized when the
`symmetrize` attribute is set, and `trim_transmat` is derived from it. -/
def trimGraph (s : CSNState) (by_inflow by_outflow : Bool) (min_count : ℚ) :
    TrimResult :=
  let mask := trimMask s by_inflow by_outflow min_count
  let trim_indices := (List.range s.nnodes).filter (fun i => pyIsTrue (mask i))
  let kept := (List.range s.nnodes).filter (fun i => mask i)
  let tc0 : SpMat :=
    { rows := kept.length
    , cols := kept.length
    , entry := fun a b => s.countmat.entry (kept.getD a 0) (kept.getD b 0) }
  let tc := if s.symmetrize then symmetrize tc0 else tc0
  { trim_indices := trim_indices
  , trim_countmat := tc
  , trim_transmat := count_to_trans tc
  , trim_nnodes := tc.rows }

/-- A Python `CSN` instance as seen through attribute lookup: its `__init__`
state, and the instance attribute `trim_graph` once a first call to the
method has stored a graph there (csn.py line 111), shadowing the method. -/
structure PyCSN where
  state : CSNState
  trimAttr : Option TrimResult

/-- Evaluating `obj.trim_graph(by_inflow, by_outflow, min_count)` on an
instance.  Attribute lookup finds the instance attribute `trim_graph` first
when it exists: after one successful call, line 111 has rebound it to a
graph object, so a second call raises `TypeError` (a graph is not
callable).  Otherwise the method body runs and stores its results. -/
def callTrimGraph (obj : PyCSN) (by_inflow by_outflow : Bool)
    (min_count : ℚ) : Except PyErr PyCSN :=
  match obj.trimAttr with
  | some _ => .error .typeErrorGraphNotCallable
  | none =>
      .ok { state := obj.state
          , trimAttr := some (trimGraph obj.state by_inflow by_outflow min_count) }

/-! ## Concrete instances used in the theorems -/

/-- The 1×1 count matrix `[[1]]`. -/
def exSquare : SpMat := ⟨1, 1, fun _ _ => 1⟩

/-- The CSN state produced by `CSN([[1]])`. -/
def csn1 : CSNState :=
  { countmat := exSquare, symmetrize := false, nnodes := 1
  , transmat := count_to_trans exSquare }

/-- The 1×1 count matrix `[[5]]`. -/
def mat5 : SpMat := ⟨1, 1, fun _ _ => 5⟩

/-- The CSN state produced by `CSN([[5]])`. -/
def csn5 : CSNState :=
  { countmat := mat5, symmetrize := false, nnodes := 1
  , transmat := count_to_trans mat5 }

/-- The 2×2 count matrix `[[0,1],[0,5]]`. -/
def mat2 : SpMat :=
  ⟨2, 2, fun i j => if i = 0 ∧ j = 1 then 1 else if i = 1 ∧ j = 1 then 5 else 0⟩

/-- The CSN state produced by `CSN([[0,1],[0,5]])`. -/
def csn2 : CSNState :=
  { countmat := mat2, symmetrize := false, nnodes := 2
  , transmat := count_to_trans mat2 }

/-- The 2×3 all-zero matrix, a non-square input. -/
def mat23 : SpMat := ⟨2, 3, fun _ _ => 0⟩

/-- The non-negative 2×2 matrix `[[1,1],[0,0]]`. -/
def mexC1 : SpMat := ⟨2, 2, fun i _ => if i = 0 then 1 else 0⟩

/-! ## Claims -/

/-- Claim C1: for a non-negative count matrix, `count_to_trans` returns a
matrix of the same shape; every row sum of the input is positive or zero;
each row with positive sum is the input row divided by that sum, and then
sums to 1; each row with zero sum is passed through unchanged (and no error
is possible: the function is total). -/
theorem count_to_trans_spec (M : SpMat) (hM : ∀ i j, 0 ≤ M.entry i j) :
    (count_to_trans M).rows = M.rows ∧ (count_to_trans M).cols = M.cols ∧
    ∀ i, (0 < M.rowSum i ∨ M.rowSum i = 0) ∧
      (0 < M.rowSum i →
        (∀ j, (count_to_trans M).entry i j = M.entry i j / M.rowSum i) ∧
        (count_to_trans M).rowSum i = 1) ∧
      (M.rowSum i = 0 → ∀ j, (count_to_trans M).entry i j = M.entry i j) := by
  refine ⟨rfl, rfl, fun i => ⟨?_, fun hpos => ⟨fun j => ?_, ?_⟩, fun hz j => ?_⟩⟩
  · rcases (Finset.sum_nonneg (fun j _ => hM i j)).lt_or_eq with h | h
    · exact Or.inl h
    · exact Or.inr h.symm
  · simp [count_to_trans, hpos]
  · have hne : M.rowSum i ≠ 0 := ne_of_gt hpos
    have hsum : (count_to_trans M).rowSum i
        = ∑ j in Finset.range M.cols, M.entry i j / M.rowSum i :=
      Finset.sum_congr rfl fun j hj => by simp [count_to_trans, hpos]
    rw [hsum, ← Finset.sum_div]
    exact div_self hne
  · simp [count_to_trans, hz]

/-- Witness for C1 at the concrete matrix `[[1,1],[0,0]]`. -/
theorem count_to_trans_spec_witness :
    (∀ i j, 0 ≤ mexC1.entry i j) ∧
    ((count_to_trans mexC1).rows = mexC1.rows ∧
     (count_to_trans mexC1).cols = mexC1.cols ∧
     ∀ i, (0 < mexC1.rowSum i ∨ mexC1.rowSum i = 0) ∧
       (0 < mexC1.rowSum i →
         (∀ j, (count_to_trans mexC1).entry i j = mexC1.entry i j / mexC1.rowSum i) ∧
         (count_to_trans mexC1).rowSum i = 1) ∧
       (mexC1.rowSum i = 0 → ∀ j, (count_to_trans mexC1).entry i j = mexC1.entry i j)) := by
  have hM : ∀ i j, 0 ≤ mexC1.entry i j := by
    intro i j
    by_cases h : i = 0 <;> simp [mexC1, h]
  exact ⟨hM, count_to_trans_spec mexC1 hM⟩

/-- Claim C2 (code bug): constructing a CSN from the square matrix `[[1]]`
with the symmetrize flag set raises `TypeError` — inside `__init__` the
boolean parameter `symmetrize` shadows the module-level function of the
same name, so line 48 calls a bool — instead of storing `0.5*(M + Mᵀ)` and
succeeding. -/
theorem init_symmetrize_true_raises :
    CSN.init exSquare true = .error .typeErrorBoolNotCallable := rfl

/-- Claim C3 (code bug): on the CSN built from `[[1]]` (N = 1), trimming
with both flow filters disabled and `min_count = 0` retains no node at all:
`mask[i] is True` at line 110 compares a numpy bool scalar by identity with
Python's `True` and is always false, so `trim_indices = []` instead of
`[0]`. -/
theorem trim_no_filter_drops_all :
    CSN.init exSquare false = .ok csn1 ∧ csn1.nnodes = 1 ∧
    (trimGraph csn1 false false 0).trim_indices = [] :=
  ⟨rfl, rfl, rfl⟩

/-- Claim C4 (code bug): on the CSN built from `[[1]]`, trimming with the
`by_inflow` filter enabled does not retain the most-sampled node: the MSN
is node 0, but `trim_indices` is empty. -/
theorem trim_drops_msn :
    CSN.init exSquare false = .ok csn1 ∧ csn1.msn = 0 ∧
    csn1.msn ∉ (trimGraph csn1 true false 0).trim_indices := by
  refine ⟨rfl, by simp [CSNState.msn, csn1, List.range_succ], ?_⟩
  simp [trimGraph, pyIsTrue]

/-- Claim C5 (code bug): on the CSN built from `[[5]]`, trimming with
`min_count = 1` and both flow filters disabled removes node 0 although its
total count 5 is ≥ 1: line 108 masks out exactly the nodes whose count is
≥ `min_count` (the polarity is reversed with respect to the docstring), and
line 110 empties `trim_indices` regardless. -/
theorem trim_min_count_drops_qualifying :
    CSN.init mat5 false = .ok csn5 ∧ (1 : ℚ) ≤ csn5.totcounts 0 ∧
    (List.range csn5.nnodes).filter (fun i => trimMask csn5 false false 1 i) = [] ∧
    (trimGraph csn5 false false 1).trim_indices = [] := by
  refine ⟨rfl, ?_, ?_, rfl⟩
  · norm_num [CSNState.totcounts, csn5, SpMat.rowSum, mat5]
  · norm_num [trimMask, CSNState.totcounts, csn5, SpMat.rowSum, mat5, List.range_succ]

/-- Claim C6 (code bug): on the CSN built from `[[0,1],[0,5]]` the MSN is
node 1 and node 0 has a directed edge to it, so node 0 is an ancestor of
the MSN, yet trimming with only `by_inflow` enabled does not retain node 0:
the code takes the keys of `dfs_successors` rooted at the MSN (descendants,
not ancestors), and line 110 empties `trim_indices` regardless. -/
theorem trim_by_inflow_drops_ancestor :
    CSN.init mat2 false = .ok csn2 ∧ csn2.msn = 1 ∧ csn2.edge 0 1 = true ∧
    0 ∉ (trimGraph csn2 true false 0).trim_indices := by
  refine ⟨rfl, ?_, ?_, ?_⟩
  · norm_num [CSNState.msn, csn2, CSNState.totcounts, SpMat.rowSum, mat2,
      List.range_succ, Finset.sum_range_succ]
  · norm_num [CSNState.edge, csn2, count_to_trans, SpMat.rowSum, mat2,
      Finset.sum_range_succ]
  · simp [trimGraph, pyIsTrue]

/-- Claim C7 (code bug): after trimming the CSN built from `[[1]]` with both
filters disabled and `min_count = 0`, `trim_indices` has length 0 while
`trim_countmat` and `trim_transmat` are 1×1: the trimmed matrices are built
from the boolean mask (all true here) but `trim_indices` from the
always-false `is True` test, so the stated invariant fails. -/
theorem trim_indices_length_mismatch :
    CSN.init exSquare false = .ok csn1 ∧
    (trimGraph csn1 false false 0).trim_indices.length = 0 ∧
    (trimGraph csn1 false false 0).trim_countmat.rows = 1 ∧
    (trimGraph csn1 false false 0).trim_countmat.cols = 1 ∧
    (trimGraph csn1 false false 0).trim_transmat.rows = 1 ∧
    (trimGraph csn1 false false 0).trim_transmat.cols = 1 := by
  refine ⟨rfl, by decide, by decide, by decide, by decide, by decide⟩

/-- A fresh instance of `CSN([[1]])`: no trim attribute yet. -/
def pyobj1 : PyCSN := ⟨csn1, none⟩

/-- The instance after one `trim_graph(True, True, 0)` call. -/
def pyobj2 : PyCSN := ⟨csn1, some (trimGraph csn1 true true 0)⟩

/-- Claim C8 (code bug): the first `trim_graph` call on the CSN built from
`[[1]]` succeeds, but it rebinds the instance attribute `trim_graph` to a
graph object, shadowing the method, so the second invocation raises
`TypeError` instead of overwriting the previous trimmed view. -/
theorem second_trim_call_raises :
    CSN.init exSquare false = .ok csn1 ∧
    callTrimGraph pyobj1 true true 0 = .ok pyobj2 ∧
    callTrimGraph pyobj2 true true 0 = .error .typeErrorGraphNotCallable :=
  ⟨rfl, rfl, rfl⟩

/-- Claim C9: for every input converted to a coo matrix whose row and column
dimensions differ, construction raises `ValueError` identifying the actual
shape, and no instance is produced. -/
theorem init_not_square_raises (counts : SpMat) (flag : Bool)
    (h : counts.rows ≠ counts.cols) :
    CSN.init counts flag
      = .error (.valueErrorNotSquare (counts.rows, counts.cols)) := by
  simp [CSN.init, h]

/-- Witness for C9 at the 2×3 zero matrix. -/
theorem init_not_square_raises_witness :
    mat23.rows ≠ mat23.cols ∧
    CSN.init mat23 false = .error (.valueErrorNotSquare (2, 3)) :=
  ⟨by decide, init_not_square_raises mat23 false (by decide)⟩

/-- Claim C10: `symmetrize` is idempotent on every square matrix. -/
theorem symmetrize_idempotent (M : SpMat) (_h : M.rows = M.cols) :
    symmetrize (symmetrize M) = symmetrize M := by
  refine congrArg (SpMat.mk M.rows M.cols) ?_
  funext i j
  show (1/2 : ℚ) * ((1/2) * (M.entry i j + M.entry j i)
      + ((1/2) * (M.entry j i + M.entry i j)))
      = (1/2) * (M.entry i j + M.entry j i)
  ring

/-- Witness for C10 at the square matrix `[[0,1],[0,5]]`. -/
theorem symmetrize_idempotent_witness :
    mat2.rows = mat2.cols ∧ symmetrize (symmetrize mat2) = symmetrize mat2 :=
  ⟨rfl, symmetrize_idempotent mat2 rfl⟩
